import Mathlib

/-!
# Shallow embedding of the `xerr` Go package

This file embeds the data model and operations of the `xerr` package
(classified errors with stack capture, the type-aware `As` matcher, the
panic-recovery HTTP middleware, frame capture and source-snippet
extraction) as executable Lean definitions, and proves the specification
claims about them.

Modelling conventions:
* Go's `error` interface values are the inductive `GoError`; a `nil`
  interface is `Option GoError`'s `none`.
* Go `uintptr` program counters are `Nat`; the ambient goroutine call
  stack is a `List Nat` passed explicitly, and `runtime.Callers` becomes
  drop-skip-then-take-buffer on that list.
* `runtime.CallersFrames` resolution is an explicit `resolve : Nat → GoFrame`
  parameter (one resolved frame per program counter).
* The filesystem is `fs : String → Option String` (`os.ReadFile`: `none`
  models any read error).
* The HTML template engine is an explicit `tpl : ErrorData → Except String String`
  parameter (`ExecuteTemplate`: `Except.error` models a render failure).
* `map[string]any` detail values are modelled as string pairs; the claims
  never inspect detail values.
-/

/-- `strings.Contains s sub` : substring test on the underlying
character lists. -/
def strContains (s sub : String) : Bool :=
  decide (sub.data <:+: s.data)

/-- Go `ErrorType` is an `int` enumeration open to caller extension. -/
abbrev ErrorType := Int

/-- The built-in default category `ErrUnknown = iota = 0`. -/
def ErrUnknown : ErrorType := 0

/-- Go `error` values that can appear in an unwrap chain:
`basic` is `errors.New` (no `Unwrap`), `wrap` is a `fmt.Errorf("...%w...")`
wrapper whose formatted message is stored whole, and `xe`/`xeWrap` are
`*XErr` values without / with a cause (`Err` field `nil` / non-`nil`;
the `Option` cause of the Go struct is split into two constructors so
that all recursion stays structural). Fields of `xe`/`xeWrap` follow the
Go struct order: Type, Message, PublicMessage, stack, Details. -/
inductive GoError where
  | basic (msg : String)
  | wrap (msg : String) (inner : GoError)
  | xe (ty : ErrorType) (message : String) (publicMessage : String)
      (stack : List Nat) (details : List (String × String))
  | xeWrap (ty : ErrorType) (message : String) (publicMessage : String)
      (stack : List Nat) (details : List (String × String)) (cause : GoError)
deriving Repr, DecidableEq

/-- The `XErr` struct of `error.go` (field `ty` models the Go field
`Type`, which is not a legal Lean field name). A Go `*XErr` variable that
may be `nil` is an `Option XErr`. -/
structure XErr where
  ty : ErrorType
  Message : String
  PublicMessage : String
  Err : Option GoError
  stack : List Nat
  Details : List (String × String)
deriving Repr, DecidableEq

/-- View an `XErr` as a `GoError` chain node. -/
def XErr.toGoError (x : XErr) : GoError :=
  match x.Err with
  | none => .xe x.ty x.Message x.PublicMessage x.stack x.Details
  | some c => .xeWrap x.ty x.Message x.PublicMessage x.stack x.Details c

/-- `runtime.Callers(skip, buf)` with a buffer of length `bufLen` over the
ambient call stack: skips `skip` innermost entries and fills at most
`bufLen` program counters. -/
def runtimeCallers (skip bufLen : Nat) (callstack : List Nat) : List Nat :=
  (callstack.drop skip).take bufLen

/-- `New(msg, t, err)` of `error.go`: captures at most 32 program counters
(`make([]uintptr, 32)`; `runtime.Callers(2, stack)`; keep `stack[:n]`). -/
def New (msg : String) (t : ErrorType) (err : Option GoError)
    (callstack : List Nat) : XErr :=
  { ty := t
    Message := msg
    PublicMessage := ""
    Err := err
    stack := runtimeCallers 2 32 callstack
    Details := [] }

/-- `WithPublicMessage` of `error.go`: sets the public message, returns
the (updated) receiver for chaining. -/
def XErr.WithPublicMessage (e : XErr) (msg : String) : XErr :=
  { e with PublicMessage := msg }

/-- `WithDetails` of `error.go`: sets the details, returns the (updated)
receiver for chaining. -/
def XErr.WithDetails (e : XErr) (details : List (String × String)) : XErr :=
  { e with Details := details }

/-- The rendered text of a chain node, as `fmt`'s `%v` verb produces it by
calling the node's `Error()` method: an `*XErr` with a cause renders
`"{Message} - {cause}"`, one without renders `Message` alone. -/
def GoError.errorText : GoError → String
  | .basic m => m
  | .wrap m _ => m
  | .xe _ m _ _ _ => m
  | .xeWrap _ m _ _ _ c => m ++ " - " ++ c.errorText

/-- `(*XErr).Error()` of `error.go`. -/
def XErr.Error (e : XErr) : String :=
  match e.Err with
  | some c => e.Message ++ " - " ++ c.errorText
  | none => e.Message

/-- `(*XErr).Unwrap()` of `error.go`. -/
def XErr.Unwrap (e : XErr) : Option GoError :=
  e.Err

/-- `(*XErr).IsType(types...)` of `error_type.go`: false on a nil
receiver; true with no categories; otherwise membership of the receiver's
category in `types`. -/
def XErr.IsType (err : Option XErr) (types : List ErrorType) : Bool :=
  match err with
  | none => false
  | some e => if types.isEmpty then true else types.contains e.ty

/-- `errors.As(err, target)` specialised to a `**XErr` target: walk the
unwrap chain from the outside in and yield the first `*XErr` node. -/
def findXErr : GoError → Option XErr
  | .basic _ => none
  | .wrap _ inner => findXErr inner
  | .xe t m p s d => some ⟨t, m, p, none, s, d⟩
  | .xeWrap t m p s d c => some ⟨t, m, p, some c, s, d⟩

/-- `As(err, target, types...)` of `error_as.go`. The target slot is
threaded explicitly: the result is `(returned bool, slot after the call)`.
`errors.As` assigns the found error to the slot before the category
check. -/
def As (err : Option GoError) (target : Option XErr)
    (types : List ErrorType) : Bool × Option XErr :=
  match err with
  | none => (false, target)
  | some e =>
    match findXErr e with
    | none => (false, target)
    | some x =>
      if types.length > 0 then (types.contains x.ty, some x)
      else (true, some x)

/-- The `Config` struct of `xerr.go`. Go's `int` fields `MaxFrames` and
`SkipFrames` are `Nat`: they size a buffer / skip count and every use in
the package keeps them non-negative. -/
structure Config where
  ShowSourceCode : Bool
  MaxFrames : Nat
  Environment : String
  DebugMode : Bool
  SkipFrames : Nat
deriving Repr, DecidableEq

/-- `DefaultConfig()` of `xerr.go`. -/
def DefaultConfig : Config :=
  { ShowSourceCode := true
    MaxFrames := 50
    Environment := "development"
    DebugMode := true
    SkipFrames := 2 }

/-- A resolved `runtime.Frame` as produced by `runtime.CallersFrames`. -/
structure GoFrame where
  function : String
  file : String
  line : Int
deriving Repr, DecidableEq

/-- The `Frame` struct of `xerr.go`. -/
structure Frame where
  Function : String
  File : String
  Line : Int
  Snippet : String
deriving Repr, DecidableEq

/-- `fmt`'s `%4d`: decimal rendering right-aligned in a 4-column field. -/
def pad4 (n : Nat) : String :=
  let s := toString n
  if s.length < 4 then String.mk (List.replicate (4 - s.length) ' ') ++ s else s

/-- One emitted snippet line for 0-based source index `i`:
`fmt.Fprintf(&b, "%s%4d | %s\n", prefix, i+1, lines[i])` with the `">> "`
marker exactly on the target line. -/
def snippetLine (lines : List String) (line : Int) (i : Nat) : String :=
  (if (i : Int) + 1 = line then ">> " else "   ") ++
    (pad4 (i + 1) ++ (" | " ++ (lines.getD i "" ++ "\n")))

/-- Accumulator loop of `splitLines`. -/
def splitLinesAux : List Char → List Char → List String
  | [], acc => [String.mk acc.reverse]
  | c :: rest, acc =>
    if c = '\n' then String.mk acc.reverse :: splitLinesAux rest []
    else splitLinesAux rest (c :: acc)

/-- `strings.Split(data, "\n")`: cut the text at every newline; the empty
text yields one empty field, as in Go. -/
def splitLines (s : String) : List String :=
  splitLinesAux s.data []

/-- Window start of `codeSnippet`: `start := line - 15; if start < 0 { start = 0 }`. -/
def snippetStart (line : Int) : Int :=
  if line - 15 < 0 then 0 else line - 15

/-- Window stop of `codeSnippet`:
`end := line + 20; if end > len(lines) { end = len(lines) }`. -/
def snippetStop (lines : List String) (line : Int) : Int :=
  if line + 20 > (lines.length : Int) then (lines.length : Int) else line + 20

/-- The emitted snippet lines: the loop `for i := start; i < end; i++`. -/
def snippetLines (lines : List String) (line : Int) : List String :=
  (List.range' (snippetStart line).toNat
      ((snippetStop lines line).toNat - (snippetStart line).toNat)).map
    (snippetLine lines line)

/-- `(*ErrorHandler).codeSnippet(file, line)` of `xerr.go`. -/
def codeSnippet (cfg : Config) (fs : String → Option String)
    (file : String) (line : Int) : String :=
  if !cfg.ShowSourceCode then "Source code display disabled"
  else
    match fs file with
    | none => "Could not read source file"
    | some data => String.join (snippetLines (splitLines data) line)

/-- Does an emitted snippet line carry the highlight marker, i.e. begin
with the three characters `">> "`? -/
def hasMarker (s : String) : Bool :=
  match s.data with
  | '>' :: '>' :: ' ' :: _ => true
  | _ => false

/-- `(*XErr).StackTrace(showSource)` of `error.go`: resolve every stored
program counter, keep frames with a non-empty file, attach a snippet when
asked. `snip` abstracts the snippet function the method calls per frame;
no path-based filtering happens here. -/
def XErr.StackTrace (resolve : Nat → GoFrame) (snip : String → Int → String)
    (e : XErr) (showSource : Bool) : List Frame :=
  (e.stack.map resolve).filterMap fun fr =>
    if fr.file ≠ "" then
      some { Function := fr.function
             File := fr.file
             Line := fr.line
             Snippet := if showSource then snip fr.file fr.line else "" }
    else none

/-- The filter of `stackFrames`: a resolved frame is kept when its file is
non-empty and its path contains neither `"/go/src/"` nor `"/pkg/mod/"`. -/
def keptFrame (fr : GoFrame) : Bool :=
  fr.file ≠ "" && !(strContains fr.file "/go/src/" || strContains fr.file "/pkg/mod/")

/-- The `Frame` that `stackFrames` materialises for a kept frame. -/
def mkKeptFrame (cfg : Config) (fs : String → Option String)
    (fr : GoFrame) : Frame :=
  { Function := fr.function
    File := fr.file
    Line := fr.line
    Snippet := codeSnippet cfg fs fr.file fr.line }

/-- The frame loop of `(*ErrorHandler).stackFrames`: skip empty-file and
runtime/module-cache frames without counting them, append kept frames, and
break as soon as the kept count reaches `MaxFrames` (checked after the
append) or the iterator is exhausted. -/
def stackFramesLoop (cfg : Config) (fs : String → Option String)
    (acc : List Frame) : List GoFrame → List Frame
  | [] => acc
  | fr :: rest =>
    if fr.file ≠ "" then
      if strContains fr.file "/go/src/" || strContains fr.file "/pkg/mod/" then
        stackFramesLoop cfg fs acc rest
      else
        let acc' := acc ++ [mkKeptFrame cfg fs fr]
        if acc'.length ≥ cfg.MaxFrames then acc'
        else stackFramesLoop cfg fs acc' rest
    else stackFramesLoop cfg fs acc rest

/-- `(*ErrorHandler).stackFrames()` of `xerr.go`:
`pcs := make([]uintptr, MaxFrames); n := runtime.Callers(SkipFrames+1, pcs)`,
then the loop over `runtime.CallersFrames(pcs[:n])`. -/
def stackFrames (cfg : Config) (fs : String → Option String)
    (resolve : Nat → GoFrame) (callstack : List Nat) : List Frame :=
  stackFramesLoop cfg fs []
    ((runtimeCallers (cfg.SkipFrames + 1) cfg.MaxFrames callstack).map resolve)

/-- Closed form of the `stackFrames` loop: with fewer kept frames than
the cap so far, the loop keeps the cap-truncated image of the
path-filtered remainder. -/
theorem stackFramesLoop_eq (cfg : Config) (fs : String → Option String)
    (frs : List GoFrame) :
    ∀ acc : List Frame, acc.length < cfg.MaxFrames →
      stackFramesLoop cfg fs acc frs
        = acc ++ ((frs.filter keptFrame).map (mkKeptFrame cfg fs)).take
            (cfg.MaxFrames - acc.length) := by
  induction frs with
  | nil => intro acc _; simp [stackFramesLoop]
  | cons fr rest ih =>
    intro acc h
    by_cases hfile : fr.file = ""
    · simp [stackFramesLoop, hfile, keptFrame, ih acc h]
    · by_cases hsub :
        (strContains fr.file "/go/src/" || strContains fr.file "/pkg/mod/") = true
      · simp [stackFramesLoop, hfile, hsub, keptFrame, ih acc h]
      · have hsub' :
            (strContains fr.file "/go/src/" || strContains fr.file "/pkg/mod/")
              = false := by
          exact Bool.not_eq_true _ ▸ (by simpa using hsub)
        have hkept : keptFrame fr = true := by
          simp [keptFrame, hfile, hsub']
        by_cases hcap : acc.length + 1 ≥ cfg.MaxFrames
        · have hm : cfg.MaxFrames = acc.length + 1 := by omega
          simp [stackFramesLoop, hfile, hsub', hkept, hm]
        · have hlt : (acc ++ [mkKeptFrame cfg fs fr]).length < cfg.MaxFrames := by
            simp; omega
          have htake : cfg.MaxFrames - acc.length
              = (cfg.MaxFrames - (acc.length + 1)) + 1 := by omega
          simp [stackFramesLoop, hfile, hsub', hkept, hcap, ih _ hlt, htake]

/-- C4: with a positive cap, the frame loop produces exactly the first
`MaxFrames` kept (non-empty-file, non-runtime-path) frames — it stops only
on iterator exhaustion or when the kept count reaches the cap, and frames
dropped by the filter do not count against the cap; consequently
`stackFrames` is the cap-truncated filtered image of the captured
snapshot. -/
theorem c4_frame_cap (cfg : Config) (fs : String → Option String)
    (resolve : Nat → GoFrame) (cs : List Nat) (frs : List GoFrame)
    (h : 0 < cfg.MaxFrames) :
    stackFramesLoop cfg fs [] frs
      = ((frs.filter keptFrame).map (mkKeptFrame cfg fs)).take cfg.MaxFrames
    ∧ stackFrames cfg fs resolve cs
      = ((((runtimeCallers (cfg.SkipFrames + 1) cfg.MaxFrames cs).map
          resolve).filter keptFrame).map (mkKeptFrame cfg fs)).take
          cfg.MaxFrames := by
  constructor
  · simpa using stackFramesLoop_eq cfg fs frs [] h
  · simpa [stackFrames] using
      stackFramesLoop_eq cfg fs
        ((runtimeCallers (cfg.SkipFrames + 1) cfg.MaxFrames cs).map resolve)
        [] h

/-- Witness for C4: a cap of 1 with a runtime frame in front — the
runtime frame is filtered without counting, the first application frame is
kept, and the loop stops before the second application frame. -/
theorem c4_frame_cap_witness :
    stackFramesLoop
        { ShowSourceCode := false, MaxFrames := 1, Environment := "",
          DebugMode := false, SkipFrames := 0 } (fun _ => none) []
        [⟨"f", "/go/src/runtime/x.go", 1⟩, ⟨"g", "app.go", 2⟩,
          ⟨"h", "app2.go", 3⟩]
      = [⟨"g", "app.go", 2, "Source code display disabled"⟩] := by
  rw [(c4_frame_cap
      { ShowSourceCode := false, MaxFrames := 1, Environment := "",
        DebugMode := false, SkipFrames := 0 } (fun _ => none)
      (fun _ => ⟨"", "", 0⟩) []
      [⟨"f", "/go/src/runtime/x.go", 1⟩, ⟨"g", "app.go", 2⟩,
        ⟨"h", "app2.go", 3⟩] (by decide)).1]
  decide

/-- C5 (amended): every frame materialised by `stackFrames` has a file
path containing neither `"/go/src/"` nor `"/pkg/mod/"`; but
`(*XErr).StackTrace` applies no such path filter, and a stack resolving
to a runtime-library file does surface such a frame in its output. -/
theorem c5_amended_path_filter (cfg : Config) (fs : String → Option String)
    (resolve : Nat → GoFrame) (cs : List Nat) :
    (stackFrames cfg fs resolve cs).all
        (fun f => !strContains f.File "/go/src/"
          && !strContains f.File "/pkg/mod/") = true
    ∧ ∃ (e : XErr) (resolve2 : Nat → GoFrame)
        (snip : String → Int → String),
        (XErr.StackTrace resolve2 snip e false).any
          (fun f => strContains f.File "/go/src/") = true := by
  constructor
  · rcases Nat.eq_zero_or_pos cfg.MaxFrames with h0 | hpos
    · simp [stackFrames, runtimeCallers, h0, stackFramesLoop]
    · rw [stackFrames,
        stackFramesLoop_eq cfg fs
          ((runtimeCallers (cfg.SkipFrames + 1) cfg.MaxFrames cs).map resolve)
          [] (by simpa using hpos),
        List.nil_append]
      rw [List.all_eq_true]
      intro f hf
      have hf' := List.mem_of_mem_take hf
      obtain ⟨fr, hfr, rfl⟩ := List.mem_map.mp hf'
      have hk := (List.mem_filter.mp hfr).2
      simp only [keptFrame, Bool.and_eq_true, Bool.not_eq_true',
        Bool.or_eq_false_iff] at hk
      simp [mkKeptFrame, hk.2.1, hk.2.2]
  · exact ⟨New "x" 0 none [0, 0, 0],
      fun _ => ⟨"runtime.gopanic", "/go/src/runtime/panic.go", 123⟩,
      fun _ _ => "", by decide⟩

/-- Counterexample to C5 as stated: a classified error whose snapshot
resolves to the runtime file `/go/src/runtime/panic.go` materialises that
frame in its `StackTrace` output, because `StackTrace` never applies the
runtime/library-path filter. -/
theorem c5_counterexample :
    (XErr.StackTrace
        (fun _ => ⟨"runtime.gopanic", "/go/src/runtime/panic.go", 123⟩)
        (fun _ _ => "") (New "x" 0 none [0, 0, 0]) false).any
      (fun f => strContains f.File "/go/src/") = true := by
  decide

/-- A string beginning with the three marker characters carries the
marker. -/
theorem hasMarker_append_marker (r : String) :
    hasMarker (">> " ++ r) = true := by
  have hd : (">> " ++ r).data = '>' :: '>' :: ' ' :: r.data := by
    rw [String.data_append]; rfl
  simp [hasMarker, hd]

/-- A string beginning with the three-space margin does not carry the
marker. -/
theorem hasMarker_append_space (r : String) :
    hasMarker ("   " ++ r) = false := by
  have hd : ("   " ++ r).data = ' ' :: ' ' :: ' ' :: r.data := by
    rw [String.data_append]; rfl
  simp [hasMarker, hd]

/-- An emitted snippet line carries the highlight marker exactly when its
0-based source index is the target line's predecessor. -/
theorem hasMarker_snippetLine (lines : List String) (line : Int) (i : Nat) :
    hasMarker (snippetLine lines line i) = decide ((i : Int) + 1 = line) := by
  unfold snippetLine
  by_cases h : (i : Int) + 1 = line
  · rw [if_pos h, hasMarker_append_marker]
    exact (decide_eq_true h).symm
  · rw [if_neg h, hasMarker_append_space]
    exact (decide_eq_false h).symm

/-- A run of `List.range'` contains exactly one occurrence of a member. -/
theorem countP_beq_range' (a : Nat) :
    ∀ s n : Nat, s ≤ a → a < s + n →
      (List.range' s n).countP (fun i => i == a) = 1 := by
  intro s n
  induction n generalizing s with
  | zero => intro hs hlt; omega
  | succ n ih =>
    intro hs hlt
    rw [List.range'_succ, List.countP_cons]
    by_cases h : s = a
    · subst h
      have hz : (List.range' (s + 1) n).countP (fun i => i == s) = 0 := by
        rw [List.countP_eq_zero]
        intro i hi
        have := List.mem_range'_1.mp hi
        simp only [beq_iff_eq]
        omega
      simp [hz]
    · have hc : ((s == a) : Bool) = false := by simp [h]
      rw [ih (s + 1) (by omega) (by omega)]
      simp [hc]

/-- C8: for a target line `1 ≤ L ≤ N` with source display enabled and a
readable file, `codeSnippet` joins the emitted window lines, the window
runs from `max 0 (L-15)` to `min N (L+20)` (so has
`min N (L+20) - (L-15)` lines), exactly one emitted line carries the
`">> "` highlight marker, and it is the one for target line `L`. -/
theorem c8_snippet_window (cfg : Config) (fs : String → Option String)
    (file data : String) (lines : List String) (L : Nat)
    (h1 : 1 ≤ L) (h2 : L ≤ lines.length)
    (hs : cfg.ShowSourceCode = true) (hf : fs file = some data)
    (hd : splitLines data = lines) :
    codeSnippet cfg fs file (L : Int)
      = String.join (snippetLines lines (L : Int))
    ∧ (snippetLines lines (L : Int)).length
        = min lines.length (L + 20) - (L - 15)
    ∧ (snippetLines lines (L : Int)).countP hasMarker = 1
    ∧ hasMarker
        ((snippetLines lines (L : Int)).getD ((L - 1) - (L - 15)) "")
        = true := by
  have hstart : (snippetStart (L : Int)).toNat = L - 15 := by
    unfold snippetStart; split_ifs <;> omega
  have hstop : (snippetStop lines (L : Int)).toNat = min lines.length (L + 20) := by
    unfold snippetStop; rw [Nat.min_def]; split_ifs <;> omega
  have hmin1 : L - 15 ≤ L - 1 := by omega
  have hmin2 : L - 1 < min lines.length (L + 20) := by
    rw [Nat.min_def]; split_ifs <;> omega
  refine ⟨?_, ?_, ?_, ?_⟩
  · simp [codeSnippet, hs, hf, hd]
  · simp [snippetLines, List.length_range', hstart, hstop]
  · rw [snippetLines, List.countP_map]
    have he : ∀ i ∈ List.range' (snippetStart (L : Int)).toNat
        ((snippetStop lines (L : Int)).toNat - (snippetStart (L : Int)).toNat),
        (hasMarker ∘ snippetLine lines (L : Int)) i = true
          ↔ (fun i => i == L - 1) i = true := by
      intro i _
      simp only [Function.comp_apply, hasMarker_snippetLine,
        decide_eq_true_eq, beq_iff_eq]
      omega
    rw [List.countP_congr he]
    exact countP_beq_range' (L - 1) _ _ (by omega) (by omega)
  · have hj : (L - 1) - (L - 15)
        < (snippetStop lines (L : Int)).toNat - (snippetStart (L : Int)).toNat := by
      omega
    rw [snippetLines, List.getD_eq_getElem?_getD, List.getElem?_map,
      List.getElem?_range' _ _ hj]
    simp only [Option.map_some', Option.getD_some, hasMarker_snippetLine,
      decide_eq_true_eq]
    omega

/-- Witness for C8 on a three-line file with target line 2. -/
theorem c8_snippet_window_witness :
    (snippetLines ["l1", "l2", "l3"] (2 : Int)).countP hasMarker = 1 :=
  (c8_snippet_window DefaultConfig (fun _ => some "l1\nl2\nl3") "f.go"
      "l1\nl2\nl3" ["l1", "l2", "l3"] 2 (by decide) (by decide) rfl rfl
      (by decide)).2.2.1


/-- The read-only request data the package consumes (`r.Method`,
`r.URL.String()`, `r.UserAgent()`). A possibly-nil `*http.Request` is an
`Option Request`. -/
structure Request where
  method : String
  url : String
  userAgent : String
deriving Repr, DecidableEq

/-- The response sink of the transport contract: set-header, set-status,
write-bytes. Accumulated state of an `http.ResponseWriter`. -/
structure ResponseWriter where
  headers : List (String × String)
  status : Option Nat
  body : String
deriving Repr, DecidableEq

/-- `w.Header().Set(k, v)`: replace any previous value of the key. -/
def setHeader (w : ResponseWriter) (k v : String) : ResponseWriter :=
  { w with headers := (k, v) :: w.headers.filter (fun p => p.1 ≠ k) }

/-- `w.WriteHeader(code)`. Per the transport contract the package invokes
this at most once per render; what the transport does with duplicate
status writes is its own concern, so the model records the latest code. -/
def writeHeader (w : ResponseWriter) (code : Nat) : ResponseWriter :=
  { w with status := some code }

/-- `w.Write` / `fmt.Fprintf(w, ...)`: append bytes to the body. -/
def write (w : ResponseWriter) (s : String) : ResponseWriter :=
  { w with body := w.body ++ s }

/-- Look up a response header value. -/
def headerGet (hs : List (String × String)) (k : String) : Option String :=
  (hs.find? (fun p => p.1 == k)).map (·.2)

/-- The `ErrorData` struct of `xerr.go`. -/
structure ErrorData where
  Error : String
  Frames : List Frame
  Timestamp : Nat
  Method : String
  URL : String
  UserAgent : String
  GoVersion : String
  OS : String
  Arch : String
  Request : Option Request

/-- The ambient-world inputs of a render: filesystem, frame resolution,
the goroutine call stack at capture time, the clock, and the runtime
facts `runtime.Version/GOOS/GOARCH`. -/
structure Env where
  fs : String → Option String
  resolve : Nat → GoFrame
  callstack : List Nat
  now : Nat
  goVersion : String
  os : String
  arch : String

/-- The `ErrorData` value `HandleError` assembles: stringified error,
captured frames, timestamp and runtime facts, and the request metadata
copied only when a request is present. -/
def handleErrorData (cfg : Config) (env : Env) (r : Option Request)
    (err : String) : ErrorData :=
  { Error := err
    Frames := stackFrames cfg env.fs env.resolve env.callstack
    Timestamp := env.now
    GoVersion := env.goVersion
    OS := env.os
    Arch := env.arch
    Request := r
    Method := match r with | some rq => rq.method | none => ""
    URL := match r with | some rq => rq.url | none => ""
    UserAgent := match r with | some rq => rq.userAgent | none => "" }

/-- `(*ErrorHandler).HandleError(w, r, err)` of `xerr.go`, with the
template engine explicit (`tpl` models `tpl.ExecuteTemplate`; `err` is the
`%v` rendering of the `interface{}` argument): build the data, set the
HTML content type, set status 500, run the template, and on a render
failure write the plain-text fallback
`"Error: %v\n\nTemplate rendering failed: %v"` — a plain write that
involves no further template execution and cannot fail. -/
def HandleError (tpl : ErrorData → Except String String) (cfg : Config)
    (env : Env) (w : ResponseWriter) (r : Option Request)
    (err : String) : ResponseWriter :=
  let data := handleErrorData cfg env r err
  let w1 := setHeader w "Content-Type" "text/html; charset=utf-8"
  let w2 := writeHeader w1 500
  match tpl data with
  | .ok out => write w2 out
  | .error renderErr =>
    write w2 ("Error: " ++ err ++ "\n\nTemplate rendering failed: " ++ renderErr)

/-- An HTTP handler over explicit side-effect state `σ`: given the request
and the pair (state, response writer), it produces the updated pair and
`some v` when it panics with a value whose `%v` rendering is `v`
(`none` on normal return). -/
def Handler (σ : Type) : Type :=
  Option Request → σ × ResponseWriter → (σ × ResponseWriter) × Option String

/-- `(*ErrorHandler).Middleware(next)` of `xerr.go`: run `next` once under
a deferred recover; on a panic hand the recovered value to `HandleError`
and swallow the panic, on normal return change nothing. -/
def Middleware (tpl : ErrorData → Except String String) (cfg : Config)
    (env : Env) (next : Handler σ) : Handler σ := fun r inp =>
  match next r inp with
  | (res, none) => (res, none)
  | ((s, w), some rec) => ((s, HandleError tpl cfg env w r rec), none)

/-- `(*ErrorHandler).MiddlewareFunc(next)` of `xerr.go`: identical
recovery semantics for a handler function. -/
def MiddlewareFunc (tpl : ErrorData → Except String String) (cfg : Config)
    (env : Env) (next : Handler σ) : Handler σ := fun r inp =>
  match next r inp with
  | (res, none) => (res, none)
  | ((s, w), some rec) => ((s, HandleError tpl cfg env w r rec), none)

/-- C6: `New(msg, t, nil).Error()` is exactly `msg`;
`New(msg, t, cause).Error()` is `msg ++ " - " ++ cause's rendered text`
for an arbitrary cause, recursing through classified causes; spelled out
for three nesting levels of classified errors. -/
theorem c6_error_text (msg : String) (t : ErrorType) (cause : GoError)
    (cs : List Nat) :
    (New msg t none cs).Error = msg
    ∧ (New msg t (some cause) cs).Error = msg ++ " - " ++ cause.errorText
    ∧ (∀ (m1 m2 m3 : String) (t1 t2 t3 : ErrorType)
        (cs1 cs2 cs3 : List Nat),
        (New m1 t1
            (some (New m2 t2
                (some (New m3 t3 none cs3).toGoError) cs2).toGoError)
            cs1).Error
          = m1 ++ " - " ++ (m2 ++ " - " ++ m3)) :=
  ⟨rfl, rfl, fun _ _ _ _ _ _ _ _ _ => rfl⟩

/-- C7: `IsType` is false on a nil receiver, true on a non-nil receiver
with no categories, and otherwise decides membership of the receiver's
category in the given list. -/
theorem c7_istype (x : XErr) (types : List ErrorType) :
    XErr.IsType none types = false
    ∧ XErr.IsType (some x) [] = true
    ∧ (types ≠ [] → (XErr.IsType (some x) types = true ↔ x.ty ∈ types)) := by
  refine ⟨rfl, rfl, fun h => ?_⟩
  simp [XErr.IsType, List.isEmpty_iff, h]

/-- Witness for C7 at a concrete receiver and category list. -/
theorem c7_istype_witness :
    XErr.IsType (some ⟨5, "m", "", none, [], []⟩) [9, 5] = true :=
  ((c7_istype ⟨5, "m", "", none, [], []⟩ [9, 5]).2.2 (by decide)).mpr
    (by decide)

/-- C2: `As` on a nil error is false and leaves the slot untouched; with
no classified error in the chain it is false and leaves the slot
untouched; with a classified error found it is true when the category
list is empty or contains the found category, and on a category mismatch
it is false while the slot holds the matched error (assignment precedes
validation). -/
theorem c2_as (err : GoError) (slot : Option XErr) (types : List ErrorType)
    (x : XErr) :
    As none slot types = (false, slot)
    ∧ (findXErr err = none → As (some err) slot types = (false, slot))
    ∧ (findXErr err = some x → As (some err) slot [] = (true, some x))
    ∧ (findXErr err = some x → x.ty ∈ types →
        As (some err) slot types = (true, some x))
    ∧ (findXErr err = some x → types ≠ [] → x.ty ∉ types →
        As (some err) slot types = (false, some x)) := by
  refine ⟨rfl, fun h => by simp [As, h], fun h => by simp [As, h],
    fun h hm => ?_, fun h hn hm => ?_⟩
  · have hlen : 0 < types.length := List.length_pos.mpr (by
      rintro rfl; exact absurd hm (List.not_mem_nil _))
    simp [As, h, hlen, hm]
  · have hlen : 0 < types.length := List.length_pos.mpr hn
    simp [As, h, hlen, hm]

/-- Witness for C2 at a concrete wrapped chain: the category list `[7]`
does not contain the found category `5`, `As` returns false, and the slot
holds the matched classified error. -/
theorem c2_as_witness :
    As (some (.wrap "w" (.xe 5 "m" "" [] []))) none [7]
      = (false, some ⟨5, "m", "", none, [], []⟩) :=
  (c2_as (.wrap "w" (.xe 5 "m" "" [] [])) none [7]
      ⟨5, "m", "", none, [], []⟩).2.2.2.2 (by decide) (by decide) (by decide)

/-- C9: with source display enabled, any failed file read makes
`codeSnippet` return the fixed placeholder; the total function never
propagates an error. -/
theorem c9_read_failure (cfg : Config) (fs : String → Option String)
    (file : String) (line : Int) (hs : cfg.ShowSourceCode = true)
    (hf : fs file = none) :
    codeSnippet cfg fs file line = "Could not read source file" := by
  simp [codeSnippet, hs, hf]

/-- Witness for C9: the default configuration against an empty
filesystem. -/
theorem c9_read_failure_witness :
    codeSnippet DefaultConfig (fun _ => none) "nofile.go" 1
      = "Could not read source file" :=
  c9_read_failure DefaultConfig (fun _ => none) "nofile.go" 1 rfl rfl

/-- C10: `New` stores at most 32 program counters regardless of the call
stack and of any configuration, the bound survives `WithPublicMessage`
and `WithDetails` (which leave the snapshot untouched), and `StackTrace`
therefore yields at most 32 frames. -/
theorem c10_stack_bound (msg pub : String) (t : ErrorType)
    (cause : Option GoError) (cs : List Nat) (d : List (String × String))
    (resolve : Nat → GoFrame) (snip : String → Int → String) (b : Bool) :
    (New msg t cause cs).stack.length ≤ 32
    ∧ ((New msg t cause cs).WithPublicMessage pub).stack
        = (New msg t cause cs).stack
    ∧ ((New msg t cause cs).WithDetails d).stack = (New msg t cause cs).stack
    ∧ (XErr.StackTrace resolve snip
        (((New msg t cause cs).WithPublicMessage pub).WithDetails d)
        b).length ≤ 32 := by
  refine ⟨?_, rfl, rfl, ?_⟩
  · simp only [New, runtimeCallers]
    exact List.length_take_le 32 (cs.drop 2)
  · calc (XErr.StackTrace resolve snip
          (((New msg t cause cs).WithPublicMessage pub).WithDetails d)
          b).length
        ≤ ((((New msg t cause cs).WithPublicMessage pub).WithDetails
            d).stack.map resolve).length := List.length_filterMap_le _ _
      _ = ((cs.drop 2).take 32).length := by
          simp only [New, XErr.WithPublicMessage, XErr.WithDetails,
            runtimeCallers, List.length_map]
      _ ≤ 32 := List.length_take_le 32 (cs.drop 2)

/-- A string whose character list decomposes around `sub` contains `sub`. -/
theorem strContains_intro (s sub : String) (a b : List Char)
    (h : s.data = a ++ sub.data ++ b) : strContains s sub = true := by
  simp only [strContains, decide_eq_true_eq, h]
  exact ⟨a, b, rfl⟩

/-- Containment is preserved by prepending. -/
theorem strContains_append_right (a b sub : String)
    (h : strContains b sub = true) : strContains (a ++ b) sub = true := by
  simp only [strContains, decide_eq_true_eq] at h ⊢
  obtain ⟨x, y, hxy⟩ := h
  refine ⟨a.data ++ x, y, ?_⟩
  rw [String.data_append, ← hxy]
  simp [List.append_assoc]

/-- Containment is transitive. -/
theorem strContains_trans (s mid sub : String)
    (h1 : strContains s mid = true) (h2 : strContains mid sub = true) :
    strContains s sub = true := by
  simp only [strContains, decide_eq_true_eq] at h1 h2 ⊢
  exact h2.trans h1

/-- Shared behaviour of `HandleError`: status 500 and the HTML content
type are always set; on template success the template's bytes are
appended to the body; on template failure the plain-text fallback is
appended and contains both the original error text and the failure
reason. -/
theorem handleError_props (tpl : ErrorData → Except String String)
    (cfg : Config) (env : Env) (w : ResponseWriter) (r : Option Request)
    (err : String) :
    (HandleError tpl cfg env w r err).status = some 500
    ∧ headerGet (HandleError tpl cfg env w r err).headers "Content-Type"
        = some "text/html; charset=utf-8"
    ∧ (∀ out, tpl (handleErrorData cfg env r err) = .ok out →
        (HandleError tpl cfg env w r err).body = w.body ++ out)
    ∧ (∀ re, tpl (handleErrorData cfg env r err) = .error re →
        (HandleError tpl cfg env w r err).body
          = w.body ++
            ("Error: " ++ err ++ "\n\nTemplate rendering failed: " ++ re)
        ∧ strContains (HandleError tpl cfg env w r err).body err = true
        ∧ strContains (HandleError tpl cfg env w r err).body re = true) := by
  refine ⟨?_, ?_, fun out h => ?_, fun re h => ?_⟩
  · cases htp : tpl (handleErrorData cfg env r err) <;>
      simp [HandleError, htp, write, writeHeader, setHeader]
  · cases htp : tpl (handleErrorData cfg env r err) <;>
      simp [HandleError, htp, write, writeHeader, setHeader, headerGet]
  · simp [HandleError, h, write, writeHeader, setHeader]
  · have hbody : (HandleError tpl cfg env w r err).body
        = w.body ++
          ("Error: " ++ err ++ "\n\nTemplate rendering failed: " ++ re) := by
      simp [HandleError, h, write, writeHeader, setHeader]
    refine ⟨hbody, ?_, ?_⟩
    · refine strContains_intro _ _ (w.body.data ++ "Error: ".data)
        ("\n\nTemplate rendering failed: ".data ++ re.data) ?_
      rw [hbody]
      simp [String.data_append, List.append_assoc]
    · refine strContains_intro _ _
        (w.body.data ++ "Error: ".data ++ err.data ++
          "\n\nTemplate rendering failed: ".data) [] ?_
      rw [hbody]
      simp [String.data_append, List.append_assoc]

/-- C3: `HandleError` sets the HTML content-type header and the 500
server-error status whatever the template does, and on a template
failure writes the plain-text fallback containing both the original
error text and the rendering failure reason; the fallback is a plain
write, with no further template execution, and is total. -/
theorem c3_handle_error (tpl : ErrorData → Except String String)
    (cfg : Config) (env : Env) (w : ResponseWriter) (r : Option Request)
    (err : String) :
    (HandleError tpl cfg env w r err).status = some 500
    ∧ headerGet (HandleError tpl cfg env w r err).headers "Content-Type"
        = some "text/html; charset=utf-8"
    ∧ (∀ re, tpl (handleErrorData cfg env r err) = .error re →
        (HandleError tpl cfg env w r err).body
          = w.body ++
            ("Error: " ++ err ++ "\n\nTemplate rendering failed: " ++ re)
        ∧ strContains (HandleError tpl cfg env w r err).body err = true
        ∧ strContains (HandleError tpl cfg env w r err).body re = true) :=
  ⟨(handleError_props tpl cfg env w r err).1,
    (handleError_props tpl cfg env w r err).2.1,
    (handleError_props tpl cfg env w r err).2.2.2⟩

/-- A template stub that always fails, for witnesses. -/
def tplFail : ErrorData → Except String String :=
  fun _ => .error "tplfail"

/-- A template stub that renders the report's error text, for
witnesses. -/
def tplShow : ErrorData → Except String String :=
  fun d => .ok ("<html>" ++ d.Error ++ "</html>")

/-- A fixed ambient world for witnesses: empty filesystem, one resolved
application frame, a two-entry call stack. -/
def envW : Env :=
  { fs := fun _ => none
    resolve := fun _ => ⟨"main.handler", "app.go", 7⟩
    callstack := [0, 1]
    now := 0
    goVersion := "1.22"
    os := "linux"
    arch := "amd64" }

/-- Witness for C3: a failing template at a concrete request. -/
theorem c3_handle_error_witness :
    strContains
        (HandleError tplFail DefaultConfig envW ⟨[], none, ""⟩ none
          "kaboom").body "kaboom" = true :=
  ((c3_handle_error tplFail DefaultConfig envW ⟨[], none, ""⟩ none
      "kaboom").2.2 "tplfail" rfl).2.1

/-- C1: both middleware variants never let a panic escape; on normal
return of the wrapped handler they forward its result unchanged (the
handler's effects happen exactly once and the recovery path writes
nothing); and on a panic whose rendered value contains `"boom"` they
produce exactly the `HandleError` response, which has status 500 and —
for any template that embeds the report's error text — a body containing
`"boom"`. -/
theorem c1_middleware {σ : Type} (tpl : ErrorData → Except String String)
    (cfg : Config) (env : Env) (next : Handler σ) (r : Option Request)
    (inp : σ × ResponseWriter)
    (htpl : ∀ d out, tpl d = Except.ok out → strContains out d.Error = true) :
    (Middleware tpl cfg env next r inp).2 = none
    ∧ (MiddlewareFunc tpl cfg env next r inp).2 = none
    ∧ (∀ res, next r inp = (res, none) →
        Middleware tpl cfg env next r inp = (res, none)
        ∧ MiddlewareFunc tpl cfg env next r inp = (res, none))
    ∧ (∀ s w pv, next r inp = ((s, w), some pv) →
        strContains pv "boom" = true →
        Middleware tpl cfg env next r inp
          = ((s, HandleError tpl cfg env w r pv), none)
        ∧ MiddlewareFunc tpl cfg env next r inp
          = ((s, HandleError tpl cfg env w r pv), none)
        ∧ (HandleError tpl cfg env w r pv).status = some 500
        ∧ strContains (HandleError tpl cfg env w r pv).body "boom" = true) := by
  refine ⟨?_, ?_, fun res h => ?_, fun s w pv hnext hboom => ?_⟩
  · rcases h : next r inp with ⟨⟨s, w⟩, po⟩
    cases po <;> simp [Middleware, h]
  · rcases h : next r inp with ⟨⟨s, w⟩, po⟩
    cases po <;> simp [MiddlewareFunc, h]
  · exact ⟨by simp [Middleware, h], by simp [MiddlewareFunc, h]⟩
  · refine ⟨by simp [Middleware, hnext], by simp [MiddlewareFunc, hnext],
      (handleError_props tpl cfg env w r pv).1, ?_⟩
    cases htp : tpl (handleErrorData cfg env r pv) with
    | ok out =>
      have hbody := (handleError_props tpl cfg env w r pv).2.2.1 out htp
      have hout : strContains out pv = true := htpl _ _ htp
      rw [hbody]
      exact strContains_append_right _ _ _
        (strContains_trans _ _ _ hout hboom)
    | error re =>
      have hc :=
        ((handleError_props tpl cfg env w r pv).2.2.2 re htp).2.1
      exact strContains_trans _ _ _ hc hboom

/-- A panicking handler over a counter state, for the C1 witness: it
increments the counter once and panics with a value containing
`"boom"`. -/
def nextBoom : Handler Nat :=
  fun _ p => ((p.1 + 1, p.2), some "boom happened")

/-- Witness for C1 at a concrete panicking handler and a rendering
template: the panic is swallowed, the handler ran once, and the rendered
response carries status 500 with `"boom"` in the body. -/
theorem c1_middleware_witness :
    Middleware tplShow DefaultConfig envW nextBoom none (0, ⟨[], none, ""⟩)
      = ((1, HandleError tplShow DefaultConfig envW ⟨[], none, ""⟩ none
          "boom happened"), none)
    ∧ (HandleError tplShow DefaultConfig envW ⟨[], none, ""⟩ none
        "boom happened").status = some 500
    ∧ strContains
        (HandleError tplShow DefaultConfig envW ⟨[], none, ""⟩ none
          "boom happened").body "boom" = true := by
  have htpl : ∀ d out, tplShow d = Except.ok out →
      strContains out d.Error = true := by
    intro d out h
    simp only [tplShow, Except.ok.injEq] at h
    subst h
    exact strContains_intro _ _ "<html>".data "</html>".data
      (by simp [String.data_append])
  have h := c1_middleware tplShow DefaultConfig envW nextBoom none
    (0, ⟨[], none, ""⟩) htpl
  have hp := h.2.2.2 1 ⟨[], none, ""⟩ "boom happened" rfl (by decide)
  exact ⟨hp.1, hp.2.2.1, hp.2.2.2⟩
